import Mathlib

/-!
# Verification of the DARA decision engine

Shallow embedding of `backend/decisionEngine.js` (the two-step variant that
`server.js` loads: `detectSuggestedFlagsAndMaybeScore` / `assessCase`), with
theorems settling the specification claims about it.

JavaScript strings are modelled as Lean `String`; case folding, trimming and
substring search are re-implemented structurally over `List Char` so that every
definition evaluates by kernel reduction.  Absent (`undefined`/`null`) fields
are modelled as `Option`; a thrown `TypeError` is modelled as `Option.none` in
the result of the fallible functions.  The nondeterministic envelope inputs
(`Math.random`, `new Date`) are threaded as an explicit `Env` value.
-/

/-- One character of JS `toLowerCase` (ASCII range, which covers every pattern
in the rule registry). -/
def jsCharLower (c : Char) : Char := c.toLower

/-- `s.toLowerCase()` — structural re-implementation of `String.toLower`. -/
def jsToLower (s : String) : String := ⟨s.data.map jsCharLower⟩

/-- Whitespace recognised by `trim`. -/
def isWSChar (c : Char) : Bool := c = ' ' || c = '\t' || c = '\n' || c = '\r'

/-- `s.trim()` — drop leading and trailing whitespace. -/
def jsTrim (s : String) : String :=
  ⟨((s.data.dropWhile isWSChar).reverse.dropWhile isWSChar).reverse⟩

/-- `text.includes(pat)` on char lists: `pat` occurs as a contiguous substring. -/
def listIncludes (pat : List Char) : List Char → Bool
  | [] => pat.isPrefixOf []
  | c :: rest => pat.isPrefixOf (c :: rest) || listIncludes pat rest

/-- `text.includes(pat)` for strings (JS substring containment). -/
def strIncludes (text pat : String) : Bool := listIncludes pat.data text.data

/-- `list.join(" ")`. -/
def joinSpace : List String → String
  | [] => ""
  | [s] => s
  | s :: rest => s ++ " " ++ joinSpace rest

/-- `value.split(",")` on char lists. -/
def splitCommaChars : List Char → List (List Char)
  | [] => [[]]
  | c :: rest =>
    let r := splitCommaChars rest
    if c = ',' then [] :: r
    else match r with
      | [] => [[c]]
      | h :: t => (c :: h) :: t

/-- `value.split(",")`. -/
def splitComma (s : String) : List String := (splitCommaChars s.data).map String.mk

/-- `safeStr(x)`: `(x ?? "").toString()` for an optional string field. -/
def safeStr (x : Option String) : String := x.getD ""

/-- `toLowerTrim(x)`: `safeStr(x).toLowerCase().trim()`. -/
def toLowerTrim (x : Option String) : String := jsTrim (jsToLower (safeStr x))

/-- `toLowerTrim` applied to a value that is already a string. -/
def toLowerTrimStr (s : String) : String := jsTrim (jsToLower s)

/-- `csvToList(value)`: empty/absent gives `[]`, else split on commas, trim,
drop empties. -/
def csvToList (value : String) : List String :=
  if value = "" then []
  else ((splitComma value).map jsTrim).filter (fun s => s ≠ "")

/-- `x || d` for an optional string (absent and `""` are falsy). -/
def jsOrStr (x : Option String) (d : String) : String :=
  match x with
  | none => d
  | some s => if s = "" then d else s

/-- Insertion into a JS `Set` modelled as a duplicate-free list in insertion
order: append if not already present. -/
def addUnique (l : List String) (x : String) : List String :=
  if x ∈ l then l else l ++ [x]

/-- `Array.from(new Set(l))`: de-duplicate keeping the first occurrence. -/
def jsDedup (l : List String) : List String := l.foldl addUnique []

/-- The `prenatal_findings` field accepts either a structured list or a
free-text (comma-separated) string. -/
inductive FindingsVal where
  | list (items : List String)
  | str (text : String)
deriving DecidableEq, Repr

/-- The intake payload (engine input).  Absent JSON fields are `none`. -/
structure Payload where
  pathway : Option String := none
  patient_sex : Option String := none
  patient_age : Option Int := none
  patient_file_number : Option String := none
  chief_concern : Option String := none
  clinical_notes : Option String := none
  family_history_summary : Option String := none
  family_history_red_flags : Option (List String) := none
  pregnancy_status : Option String := none
  gestational_weeks : Option String := none
  prenatal_findings : Option FindingsVal := none
  pediatric_red_flags : Option (List String) := none
  hpo_terms : Option (List String) := none
  confirmed_flags : Option (List String) := none
deriving DecidableEq, Repr

/-- A detection rule of the registry: indicator id, score weight, trigger
phrases and rationale. -/
structure Rule where
  id : String
  weight : Nat
  patterns : List String
  reason : String
deriving DecidableEq, Repr

/-- An extra (cross-cutting) indicator: weight and rationale. -/
structure ExtraFlag where
  weight : Nat
  reason : String
deriving DecidableEq, Repr

/-- A JS number as the scoring loops produce it: a genuine (natural) number,
or NaN — which `score += undefined` yields when a confirmed id hits an
inherited `Object.prototype` member of the extra-flags table. -/
inductive JsNum where
  | num (n : Nat)
  | nan
deriving DecidableEq, Repr

/-- `score + w` for a plain number weight `w`; NaN is absorbing. -/
def JsNum.addW : JsNum → Nat → JsNum
  | .num n, w => .num (n + w)
  | .nan, _ => .nan

/-- `Math.min(score, 100)`; `Math.min(NaN, 100)` is NaN. -/
def jsMin100 : JsNum → JsNum
  | .num n => .num (min n 100)
  | .nan => .nan

/-- The JS `<` comparison on scores: false whenever either side is NaN. -/
def jsLt : JsNum → JsNum → Bool
  | .num m, .num n => decide (m < n)
  | _, _ => false

/-- The own property names of `Object.prototype`.  A bracket lookup on an
object literal with any of these exact keys returns an inherited truthy value
instead of `undefined`. -/
def objectPrototypeNames : List String :=
  ["constructor", "hasOwnProperty", "isPrototypeOf", "propertyIsEnumerable",
   "toLocaleString", "toString", "valueOf", "__defineGetter__", "__defineSetter__",
   "__lookupGetter__", "__lookupSetter__", "__proto__"]

/-- Result of the property lookup `EXTRA_FLAGS[f]`: an own table entry, an
inherited `Object.prototype` member (truthy, but its `.weight` and `.reason`
are `undefined`), or `undefined`. -/
inductive ExtraLookup where
  | own (e : ExtraFlag)
  | inherited
  | undefined
deriving DecidableEq, Repr

/-- Result of `RULES[pathway] || []`: an own rule array (the `[]` default when
the lookup is `undefined`), or an inherited truthy non-array
`Object.prototype` member, on which the later `for..of` rule iteration throws
a `TypeError`. -/
inductive RulesLookup where
  | own (rules : List Rule)
  | inherited
deriving DecidableEq, Repr

/-- The oncogenetics rule list of the registry. -/
def oncogeneticsRules : List Rule :=
    [ { id := "early_onset_cancer", weight := 40,
        patterns := ["early onset", "before 50", "diagnosed at 25", "diagnosed at 30",
                     "diagnosed at 35", "diagnosed at 40", "diagnosed at 45", "young age"],
        reason := "Early-onset cancer mentioned in the history." },
      { id := "multiple_relatives_cancer", weight := 30,
        patterns := ["multiple relatives", "several relatives", "more than one",
                     "two relatives", "three relatives"],
        reason := "Multiple relatives with cancer mentioned." },
      { id := "breast_and_ovarian_pattern", weight := 30,
        patterns := ["breast cancer", "ovarian cancer"],
        reason := "Breast + ovarian cancer pattern mentioned (possible hereditary syndrome)." },
      { id := "multiple_primaries", weight := 25,
        patterns := ["two primary", "multiple primaries", "second primary", "multiple cancers"],
        reason := "Multiple primary cancers mentioned in the same person." } ]

/-- The prenatal rule list of the registry. -/
def prenatalRules : List Rule :=
    [ { id := "abnormal_ultrasound", weight := 50,
        patterns := ["abnormal ultrasound", "ultrasound anomaly", "malformation",
                     "anomaly scan", "fetal anomaly"],
        reason := "Abnormal ultrasound finding mentioned." },
      { id := "increased_nt", weight := 40,
        patterns := ["nuchal translucency", "increased nt", "nt increased", "thickened nt"],
        reason := "Increased nuchal translucency mentioned." },
      { id := "previous_aneuploidy", weight := 40,
        patterns := ["trisomy 21", "t21", "down syndrome", "aneuploidy"],
        reason := "History suggesting aneuploidy (e.g., trisomy 21) mentioned." },
      { id := "positive_screening", weight := 35,
        patterns := ["positive nipt", "high risk nipt", "screening high risk", "positive screening"],
        reason := "Positive/high-risk prenatal screening mentioned." },
      { id := "previous_affected_child", weight := 40,
        patterns := ["previous affected child", "previous child affected",
                     "affected pregnancy", "recurrent condition"],
        reason := "Previous affected pregnancy/child mentioned." } ]

/-- The pediatric rule list of the registry. -/
def pediatricRules : List Rule :=
    [ { id := "developmental_delay", weight := 35,
        patterns := ["developmental delay", "global delay", "gdd", "delayed milestones"],
        reason := "Developmental delay mentioned." },
      { id := "seizures", weight := 35,
        patterns := ["seizure", "seizures", "epilepsy"],
        reason := "Seizures mentioned." },
      { id := "congenital_anomalies", weight := 25,
        patterns := ["congenital", "dysmorphic", "malformation", "anomalies"],
        reason := "Congenital anomalies/dysmorphism mentioned." } ]

/-- The static per-pathway rule registry: the JS lookup `RULES[pathway] || []`
including the `Object.prototype` chain (an inherited member is truthy, so the
`|| []` default does not fire on it). -/
def RULES (pathway : String) : RulesLookup :=
  if pathway = "oncogenetics" then .own oncogeneticsRules
  else if pathway = "prenatal" then .own prenatalRules
  else if pathway = "pediatric" then .own pediatricRules
  else if pathway ∈ objectPrototypeNames then .inherited
  else .own []

/-- The `EXTRA_FLAGS` table lookup `EXTRA_FLAGS[f]`, including the
`Object.prototype` chain. -/
def EXTRA_FLAGS (f : String) : ExtraLookup :=
  if f = "pancreatic_cancer" then
    .own { weight := 45,
           reason := "Pancreatic cancer is a high-risk indication for genetic referral." }
  else if f = "pancreas_melanoma_pattern" then
    .own { weight := 15,
           reason := "Pancreatic cancer with melanoma in the family may suggest a hereditary syndrome (e.g., CDKN2A/FAMMM)." }
  else if f ∈ objectPrototypeNames then .inherited
  else .undefined

/-- Truthiness of `EXTRA_FLAGS[f]`: own entries and inherited members pass the
`if (EXTRA_FLAGS[f])` test. -/
def extraFlagTruthy (f : String) : Bool :=
  match EXTRA_FLAGS f with
  | .undefined => false
  | _ => true

/-- Whether an id is one of the two genuine extra indicators. -/
def isExtraIndicator (f : String) : Bool :=
  match EXTRA_FLAGS f with
  | .own _ => true
  | _ => false

/-- The structured part `f` of `normalizePrenatalFindings`:
`Array.isArray(findings) ? findings : csvToList(findings)`, with the
default-parameter `[]` for an absent value. -/
def prenatalStructured : Option FindingsVal → List String
  | none => []
  | some (.list l) => l
  | some (.str s) => csvToList s

/-- The combined lower-cased text scanned by `normalizePrenatalFindings`. -/
def prenatalText (findings : Option FindingsVal) (notes fh : Option String) : String :=
  jsToLower (joinSpace (prenatalStructured findings) ++ " " ++ safeStr notes ++ " " ++ safeStr fh)

/-- `normalizePrenatalFindings(findings, clinicalNotes, familyHistory)`:
trimmed, de-duplicated structured findings plus canonical tokens for synonym
groups detected in the combined findings/notes/family-history text. -/
def normalizePrenatalFindings (findings : Option FindingsVal) (notes fh : Option String) :
    List String :=
  let text := prenatalText findings notes fh
  let n0 := jsDedup (((prenatalStructured findings).map toLowerTrimStr).filter (fun s => s ≠ ""))
  let n1 := if strIncludes text "trisomy 21" || strIncludes text "t21" ||
               strIncludes text "down syndrome" then addUnique n0 "previous_aneuploidy" else n0
  let n2 := if strIncludes text "nuchal" || strIncludes text "nt" ||
               strIncludes text "translucency" then addUnique n1 "increased_nt" else n1
  let n3 := if strIncludes text "ultrasound" || strIncludes text "anomaly" ||
               strIncludes text "malformation" then addUnique n2 "abnormal_ultrasound" else n2
  if strIncludes text "nipt" && (strIncludes text "positive" || strIncludes text "high risk")
  then addUnique n3 "positive_screening" else n3

/-- `(payload.prenatal_findings || []).join(" ")` inside `collectText`: a
non-empty free-text findings value is not an array, so `.join` throws
(modelled as `none`); the empty string is falsy and falls back to `[]`. -/
def prenatalJoin : Option FindingsVal → Option String
  | none => some ""
  | some (.list l) => some (joinSpace l)
  | some (.str s) => if s = "" then some "" else none

/-- `collectText(payload)`: one lower-cased, trimmed, space-joined corpus built
from all relevant fields; `none` models the `TypeError` thrown when
`prenatal_findings` is a non-empty string. -/
def collectText (p : Payload) : Option String :=
  (prenatalJoin p.prenatal_findings).map (fun pf =>
    let parts : List String :=
      [ safeStr p.pathway,
        safeStr p.patient_sex,
        (match p.patient_age with
         | some a => "age " ++ toString a
         | none => ""),
        (match p.patient_file_number with
         | some s => if s = "" then "" else "file " ++ s
         | none => ""),
        safeStr p.chief_concern,
        safeStr p.clinical_notes,
        safeStr p.family_history_summary,
        joinSpace (p.family_history_red_flags.getD []),
        safeStr p.pregnancy_status,
        (match p.gestational_weeks with
         | some g => g ++ " weeks"
         | none => ""),
        pf,
        joinSpace (p.pediatric_red_flags.getD []),
        joinSpace (p.hpo_terms.getD []) ]
    joinSpace ((parts.map toLowerTrimStr).filter (fun s => s ≠ "")))

/-- One iteration of the Step-2 `for (const r of rules)` loop: a rule whose id
is a member of the confirmed list adds its weight and rationale once.
Rationale entries are `Option String` because the extras loop can push
`undefined` (see `extraStep`). -/
def ruleStep (confirmed : List String) (acc : JsNum × List (Option String)) (r : Rule) :
    JsNum × List (Option String) :=
  if r.id ∈ confirmed then (acc.1.addW r.weight, acc.2 ++ [some r.reason]) else acc

/-- The registry half of Step-2 scoring (`score` / `scoreReasons` after the
first loop). -/
def scoreRules (rules : List Rule) (confirmed : List String) :
    JsNum × List (Option String) :=
  rules.foldl (ruleStep confirmed) (JsNum.num 0, [])

/-- One iteration of the Step-2 `for (const f of confirmed)` loop: each
occurrence of an own extra-indicator id adds its weight and rationale; an
inherited `Object.prototype` member passes the truthiness test, but its
`.weight` is `undefined`, so `score += undefined` poisons the score to NaN and
the `undefined` rationale is pushed; an `undefined` lookup is skipped. -/
def extraStep (acc : JsNum × List (Option String)) (f : String) :
    JsNum × List (Option String) :=
  match EXTRA_FLAGS f with
  | .own e => (acc.1.addW e.weight, acc.2 ++ [some e.reason])
  | .inherited => (JsNum.nan, acc.2 ++ [none])
  | .undefined => acc

/-- Step-2 scoring before clamping: the registry loop followed by the
extra-flags loop (`score` / `scoreReasons` at the end of Step 2). -/
def scoreConfirmed (rules : List Rule) (confirmed : List String) :
    JsNum × List (Option String) :=
  confirmed.foldl extraStep (scoreRules rules confirmed)

/-- The Step-1 suggestion pass: the suggested-flag set (insertion order) and
the propose-reasons list, before the step switch. -/
def detectSuggested (pathway : String) (text : String) (p : Payload) (rules : List Rule) :
    List String × List (Option String) :=
  let sr0 : List String × List (Option String) :=
    if jsTrim (safeStr p.family_history_summary) ≠ "" then
      ([], [some "Family history information was provided and should be considered in the genetic assessment."])
    else ([], [])
  let sr1 :=
    if pathway = "oncogenetics" then
      let textAll := toLowerTrim p.chief_concern ++ " " ++ toLowerTrim p.clinical_notes ++
        " " ++ toLowerTrim p.family_history_summary
      let srA :=
        if strIncludes textAll "pancreatic" || strIncludes textAll "pancreas" then
          (addUnique sr0.1 "pancreatic_cancer",
           sr0.2 ++ [some "Pancreatic cancer is a high-risk indication for genetic referral."])
        else sr0
      if (strIncludes textAll "pancreatic" || strIncludes textAll "pancreas") &&
         strIncludes textAll "melanoma" then
        (addUnique srA.1 "pancreas_melanoma_pattern",
         srA.2 ++ [some "Pancreatic cancer with melanoma in the family may suggest a hereditary syndrome (e.g., CDKN2A/FAMMM)."])
      else srA
    else sr0
  rules.foldl
    (fun acc r =>
      if r.patterns.any (fun pat => strIncludes text pat) then
        (addUnique acc.1 r.id, acc.2 ++ [some r.reason])
      else acc)
    sr1

/-- The step-switch output of the engine core. -/
structure DetectOut where
  suggested_flags : List String
  used_flags : List String
  reasons : List (Option String)
  score : Option JsNum
  used_mode : String
deriving DecidableEq, Repr

/-- `detectSuggestedFlagsAndMaybeScore(payload)`: Step 1 proposes flags with a
null score; when `confirmed_flags` is an array, Step 2 scores the confirmed
flags (registry by membership, extras per occurrence) and clamps at 100.
`none` models the thrown `TypeError`s: `collectText` on a free-text findings
string, and the `for..of` rule iteration when the pathway string reaches an
inherited non-iterable `Object.prototype` member of the registry. -/
def detectSuggestedFlagsAndMaybeScore (p : Payload) : Option DetectOut :=
  let pathway := toLowerTrim p.pathway
  match collectText p with
  | none => none
  | some text =>
    match RULES pathway with
    | .inherited => none
    | .own rules =>
      let sr := detectSuggested pathway text p rules
      match p.confirmed_flags with
      | none =>
        some { suggested_flags := sr.1, used_flags := [],
               reasons := if sr.2.isEmpty then
                 [some "Suggested red flags were extracted from the provided context."] else sr.2,
               score := none, used_mode := "propose_flags" }
      | some confirmed =>
        let sc := scoreConfirmed rules confirmed
        some { suggested_flags := sr.1, used_flags := confirmed,
               reasons := if sc.2.isEmpty then [some "No confirmed flags were selected."] else sc.2,
               score := some (jsMin100 sc.1), used_mode := "confirmed_flags" }

/-- The missing-information checks of `assessCase`, in source order. -/
def missingInfo (p : Payload) : List String :=
  (if p.patient_age.isNone then ["Patient age"] else []) ++
  (if p.patient_sex.isNone || p.patient_sex = some "" || p.patient_sex = some "unknown" then
    ["Patient sex"] else []) ++
  (if jsTrim (safeStr p.chief_concern) = "" then ["Chief concern"] else []) ++
  (if jsTrim (safeStr p.family_history_summary) = "" then ["Family history summary"] else []) ++
  (if toLowerTrim p.pathway = "prenatal" then
    (if p.pregnancy_status.isNone || p.pregnancy_status = some "" ||
        p.pregnancy_status = some "not_applicable" then
      ["Pregnancy status (pregnant or preconception)"] else []) ++
    (if p.pregnancy_status = some "pregnant" &&
        (p.gestational_weeks.isNone || p.gestational_weeks = some "") then
      ["Gestational age (weeks)"] else [])
   else []) ++
  (if toLowerTrim p.pathway = "pediatric" then
    (if p.hpo_terms.isNone || p.hpo_terms = some [] then
      ["HPO terms (or a more detailed phenotype description)"] else [])
   else [])

/-- The fixed pathway-specific next-step list of `assessCase`. -/
def nextSteps (p : Payload) : List String :=
  let pathway := toLowerTrim p.pathway
  if pathway = "oncogenetics" then
    ["Complete a three-generation family history.",
     "Collect pathology reports if available.",
     "Consider referral to genetic counseling based on confirmed findings."]
  else if pathway = "prenatal" then
    ["Collect ultrasound report and screening results.",
     "Discuss referral to prenatal genetic counseling (time-sensitive)."]
  else if pathway = "pediatric" then
    ["Complete phenotype documentation (clinical exam + notes).",
     "Consider referral to pediatric genetic counseling."]
  else []

/-- Step-2 triage from the clamped score.  The JS comparisons are false on
NaN, so a NaN score keeps the initial "discuss". -/
def triageOf (score : JsNum) : String :=
  match score with
  | .num n =>
    if n ≥ 70 then "recommended"
    else if n ≤ 20 then "not_prioritized"
    else "discuss"
  | .nan => "discuss"

/-- The nondeterministic envelope inputs: the random case-id suffix and the
current ISO timestamp. -/
structure Env where
  rand : String
  now : String
deriving DecidableEq, Repr

/-- The assembled case envelope. -/
structure CaseResult where
  case_id : String
  created_at : String
  pathway : String
  triage : String
  priority_score : Option JsNum
  reasons : List (Option String)
  suggested_flags : List String
  used_flags : List String
  used_mode : String
  missing_info : List String
  next_steps : List String
  disclaimer : String
  message : Option String
deriving DecidableEq, Repr

/-- The fixed educational disclaimer. -/
def disclaimerText : String :=
  "This tool is for educational triage purposes only and does not replace medical decision-making."

/-- The envelope construction of `assessCase` after detection: the Step-1
pending envelope when the score is null, otherwise the Step-2 envelope with
triage and the low-risk suppression rule. -/
def buildResult (env : Env) (p2 : Payload) (d : DetectOut) : CaseResult :=
  let missing_info := missingInfo p2
  let next_steps := nextSteps p2
  match d.score with
  | none =>
    { case_id := "case_" ++ env.rand, created_at := env.now,
      pathway := safeStr p2.pathway,
      triage := "pending_confirmation", priority_score := none,
      reasons := d.reasons,
      suggested_flags := d.suggested_flags, used_flags := d.used_flags,
      used_mode := d.used_mode,
      missing_info := missing_info, next_steps := next_steps,
      disclaimer := disclaimerText,
      message := some "Please confirm relevant flags to compute a score and triage." }
  | some sc =>
    let triage := triageOf sc
    let pathway := toLowerTrim p2.pathway
    let missing2 := if triage = "not_prioritized" ∧ pathway ≠ "prenatal" then [] else missing_info
    let next2 := if triage = "not_prioritized" then
        ["No genetic referral needed based on current information.",
         "Reassess if new family history or clinical findings appear."]
      else next_steps
    { case_id := "case_" ++ env.rand, created_at := env.now,
      pathway := safeStr p2.pathway,
      triage := triage, priority_score := some sc,
      reasons := if d.reasons.isEmpty then
        [some "Not enough relevant signals identified from the provided data."] else d.reasons,
      suggested_flags := d.suggested_flags, used_flags := d.used_flags,
      used_mode := d.used_mode,
      missing_info := missing2, next_steps := next2,
      disclaimer := disclaimerText, message := none }

/-- The in-place mutations `assessCase` performs on its argument before
detection: the defaulted pathway and, on the prenatal pathway, the
normalized findings list. -/
def mutatePayload (p0 : Payload) : Payload :=
  let p1 := { p0 with pathway := some (jsOrStr p0.pathway "oncogenetics") }
  if toLowerTrim p1.pathway = "prenatal" then
    { p1 with prenatal_findings := some (FindingsVal.list
        (normalizePrenatalFindings p1.prenatal_findings p1.clinical_notes
          p1.family_history_summary)) }
  else p1

/-- `assessCase(payload)`.  The source mutates its argument (see
`mutatePayload`), so the embedding returns the mutated payload together with
the result; `none` models the thrown `TypeError` of `collectText`. -/
def assessCase (env : Env) (p0 : Payload) : Payload × Option CaseResult :=
  let p2 := mutatePayload p0
  (p2, (detectSuggestedFlagsAndMaybeScore p2).map (buildResult env p2))

/-- The pathway string actually used for rule lookup and advisory text:
defaulted, lower-cased and trimmed. -/
def effPath (p : Payload) : String := toLowerTrimStr (jsOrStr p.pathway "oncogenetics")

/-- A fixed envelope environment for concrete evaluations. -/
def env0 : Env := { rand := "9f3a2c", now := "2026-10-12T00:00:00.000Z" }

/-- Total weight the registry of a pathway assigns to one indicator id. -/
def ruleIdWeight (rules : List Rule) (f : String) : Nat :=
  ((rules.filter (fun r => r.id = f)).map Rule.weight).sum

/-- Weight of an extra indicator (0 when the id is not an extra indicator). -/
def extraWeight (f : String) : Nat :=
  match EXTRA_FLAGS f with
  | .own e => e.weight
  | _ => 0

/-- Modelled from the spec wording of the clamp law: the registered weight of
one confirmed indicator (registry weight in the pathway plus extra-indicator
weight). -/
def flagWeight (rules : List Rule) (f : String) : Nat := ruleIdWeight rules f + extraWeight f

/-- Modelled from the spec wording of the clamp law: the sum of the weights of
the confirmed indicators known in the given pathway. -/
def specWeightSum (rules : List Rule) (confirmed : List String) : Nat :=
  (confirmed.map (flagWeight rules)).sum

/-- An id is handled by Step-2 scoring when it matches a registry rule or any
truthy `EXTRA_FLAGS` lookup (an own extra indicator or an inherited
`Object.prototype` member); all other ids are ignored. -/
def isHandledFlag (rules : List Rule) (f : String) : Bool :=
  rules.any (fun r => r.id = f) || extraFlagTruthy f

/-- The registry sum of Step-2: the weights of the rules whose id occurs in
the confirmed list. -/
def scoreRulesNat (rules : List Rule) (confirmed : List String) : Nat :=
  (rules.map (fun r => if r.id ∈ confirmed then r.weight else 0)).sum

/-- Every envelope field except the case identifier and creation timestamp. -/
def coreFields (r : CaseResult) :
    String × String × Option JsNum × List (Option String) × List String × List String ×
      String × List String × List String × String × Option String :=
  (r.pathway, r.triage, r.priority_score, r.reasons, r.suggested_flags, r.used_flags,
   r.used_mode, r.missing_info, r.next_steps, r.disclaimer, r.message)

theorem assessCase_fst (env : Env) (p : Payload) : (assessCase env p).1 = mutatePayload p := rfl

theorem assessCase_snd (env : Env) (p : Payload) :
    (assessCase env p).2 =
      (detectSuggestedFlagsAndMaybeScore (mutatePayload p)).map
        (buildResult env (mutatePayload p)) := rfl

theorem toLowerTrim_some (s : String) : toLowerTrim (some s) = toLowerTrimStr s := rfl

theorem mutatePayload_pathway (p : Payload) :
    (mutatePayload p).pathway = some (jsOrStr p.pathway "oncogenetics") := by
  simp only [mutatePayload]
  split <;> rfl

theorem toLowerTrim_mutatePayload (p : Payload) :
    toLowerTrim (mutatePayload p).pathway = effPath p := by
  rw [mutatePayload_pathway]
  rfl

theorem mutatePayload_findings_prenatal (p : Payload) (h : effPath p = "prenatal") :
    (mutatePayload p).prenatal_findings =
      some (FindingsVal.list (normalizePrenatalFindings p.prenatal_findings
        p.clinical_notes p.family_history_summary)) := by
  simp only [mutatePayload]
  rw [if_pos]
  exact h

theorem mutatePayload_findings_other (p : Payload) (h : effPath p ≠ "prenatal") :
    (mutatePayload p).prenatal_findings = p.prenatal_findings := by
  simp only [mutatePayload]
  rw [if_neg]
  exact h

theorem mutatePayload_rest (p : Payload) :
    (mutatePayload p).patient_sex = p.patient_sex ∧
    (mutatePayload p).patient_age = p.patient_age ∧
    (mutatePayload p).patient_file_number = p.patient_file_number ∧
    (mutatePayload p).chief_concern = p.chief_concern ∧
    (mutatePayload p).clinical_notes = p.clinical_notes ∧
    (mutatePayload p).family_history_summary = p.family_history_summary ∧
    (mutatePayload p).family_history_red_flags = p.family_history_red_flags ∧
    (mutatePayload p).pregnancy_status = p.pregnancy_status ∧
    (mutatePayload p).gestational_weeks = p.gestational_weeks ∧
    (mutatePayload p).pediatric_red_flags = p.pediatric_red_flags ∧
    (mutatePayload p).hpo_terms = p.hpo_terms ∧
    (mutatePayload p).confirmed_flags = p.confirmed_flags := by
  simp only [mutatePayload]
  split <;> exact ⟨rfl, rfl, rfl, rfl, rfl, rfl, rfl, rfl, rfl, rfl, rfl, rfl⟩

theorem mutatePayload_confirmed (p : Payload) :
    (mutatePayload p).confirmed_flags = p.confirmed_flags :=
  (mutatePayload_rest p).2.2.2.2.2.2.2.2.2.2.2

theorem mem_addUnique (l : List String) (x y : String) :
    x ∈ addUnique l y ↔ x ∈ l ∨ x = y := by
  unfold addUnique
  split
  case isTrue h =>
    constructor
    · exact Or.inl
    · rintro (hx | rfl)
      · exact hx
      · exact h
  case isFalse h => simp

theorem mem_foldl_addUnique (l : List String) :
    ∀ (acc : List String) (x : String), x ∈ l.foldl addUnique acc ↔ x ∈ acc ∨ x ∈ l := by
  induction l with
  | nil => simp
  | cons a t ih =>
    intro acc x
    simp only [List.foldl_cons, ih, mem_addUnique, List.mem_cons]
    tauto

theorem mem_jsDedup (l : List String) (x : String) : x ∈ jsDedup l ↔ x ∈ l := by
  simp [jsDedup, mem_foldl_addUnique]

theorem detect_none (p : Payload) (hct : collectText p = none) :
    detectSuggestedFlagsAndMaybeScore p = none := by
  simp only [detectSuggestedFlagsAndMaybeScore, hct]

theorem detect_none_inherited (p : Payload) (text : String)
    (hct : collectText p = some text)
    (hr : RULES (toLowerTrim p.pathway) = RulesLookup.inherited) :
    detectSuggestedFlagsAndMaybeScore p = none := by
  simp only [detectSuggestedFlagsAndMaybeScore, hct, hr]

theorem detect_propose (p : Payload) (text : String) (rules : List Rule)
    (hct : collectText p = some text)
    (hr : RULES (toLowerTrim p.pathway) = RulesLookup.own rules)
    (hcf : p.confirmed_flags = none) :
    detectSuggestedFlagsAndMaybeScore p =
      some { suggested_flags := (detectSuggested (toLowerTrim p.pathway) text p rules).1,
             used_flags := [],
             reasons := if (detectSuggested (toLowerTrim p.pathway) text p rules).2.isEmpty then
               [some "Suggested red flags were extracted from the provided context."]
               else (detectSuggested (toLowerTrim p.pathway) text p rules).2,
             score := none, used_mode := "propose_flags" } := by
  simp only [detectSuggestedFlagsAndMaybeScore, hct, hr, hcf]

theorem detect_confirmed (p : Payload) (text : String) (rules : List Rule) (l : List String)
    (hct : collectText p = some text)
    (hr : RULES (toLowerTrim p.pathway) = RulesLookup.own rules)
    (hcf : p.confirmed_flags = some l) :
    detectSuggestedFlagsAndMaybeScore p =
      some { suggested_flags := (detectSuggested (toLowerTrim p.pathway) text p rules).1,
             used_flags := l,
             reasons := if (scoreConfirmed rules l).2.isEmpty then
               [some "No confirmed flags were selected."]
               else (scoreConfirmed rules l).2,
             score := some (jsMin100 (scoreConfirmed rules l).1),
             used_mode := "confirmed_flags" } := by
  simp only [detectSuggestedFlagsAndMaybeScore, hct, hr, hcf]

theorem buildResult_step1 (env : Env) (p2 : Payload) (d : DetectOut) (h : d.score = none) :
    buildResult env p2 d =
      { case_id := "case_" ++ env.rand, created_at := env.now,
        pathway := safeStr p2.pathway,
        triage := "pending_confirmation", priority_score := none,
        reasons := d.reasons,
        suggested_flags := d.suggested_flags, used_flags := d.used_flags,
        used_mode := d.used_mode,
        missing_info := missingInfo p2, next_steps := nextSteps p2,
        disclaimer := disclaimerText,
        message := some "Please confirm relevant flags to compute a score and triage." } := by
  simp only [buildResult, h]

theorem buildResult_step2 (env : Env) (p2 : Payload) (d : DetectOut) (sc : JsNum)
    (h : d.score = some sc) :
    buildResult env p2 d =
      { case_id := "case_" ++ env.rand, created_at := env.now,
        pathway := safeStr p2.pathway,
        triage := triageOf sc, priority_score := some sc,
        reasons := if d.reasons.isEmpty then
          [some "Not enough relevant signals identified from the provided data."] else d.reasons,
        suggested_flags := d.suggested_flags, used_flags := d.used_flags,
        used_mode := d.used_mode,
        missing_info := if triageOf sc = "not_prioritized" ∧ toLowerTrim p2.pathway ≠ "prenatal"
          then [] else missingInfo p2,
        next_steps := if triageOf sc = "not_prioritized" then
            ["No genetic referral needed based on current information.",
             "Reassess if new family history or clinical findings appear."]
          else nextSteps p2,
        disclaimer := disclaimerText, message := none } := by
  simp only [buildResult, h]

theorem sumMapAdd (f g : String → Nat) (l : List String) :
    (l.map (fun x => f x + g x)).sum = (l.map f).sum + (l.map g).sum := by
  induction l with
  | nil => simp
  | cons a t ih => simp [ih]; omega

theorem foldl_ruleStep_fst (l : List String) (rules : List Rule) :
    ∀ (n : Nat) (rs : List (Option String)),
      (rules.foldl (ruleStep l) (JsNum.num n, rs)).1 =
        JsNum.num (n + (rules.map (fun r => if r.id ∈ l then r.weight else 0)).sum) := by
  induction rules with
  | nil => intro n rs; simp
  | cons r rest ih =>
    intro n rs
    simp only [List.foldl_cons, List.map_cons, List.sum_cons, ruleStep]
    split
    · dsimp only [JsNum.addW]
      rw [ih]
      rw [Nat.add_assoc]
    · rw [ih]
      rw [Nat.zero_add]

theorem scoreRules_fst (rules : List Rule) (l : List String) :
    (scoreRules rules l).1 = JsNum.num (scoreRulesNat rules l) := by
  simp [scoreRules, scoreRulesNat, foldl_ruleStep_fst]

theorem foldl_extraStep_clean (l : List String)
    (hcl : ∀ f ∈ l, EXTRA_FLAGS f ≠ ExtraLookup.inherited) :
    ∀ (n : Nat) (rs : List (Option String)),
      (l.foldl extraStep (JsNum.num n, rs)).1 =
        JsNum.num (n + (l.map extraWeight).sum) := by
  induction l with
  | nil => intro n rs; simp
  | cons f t ih =>
    intro n rs
    have hf := hcl f (List.mem_cons_self f t)
    have iht := ih (fun g hg => hcl g (List.mem_cons_of_mem _ hg))
    simp only [List.foldl_cons, List.map_cons, List.sum_cons]
    cases hEF : EXTRA_FLAGS f with
    | own e =>
      simp only [extraStep, hEF]
      dsimp only [JsNum.addW]
      rw [iht]
      simp [extraWeight, hEF, Nat.add_assoc]
    | inherited => exact absurd hEF hf
    | undefined =>
      simp only [extraStep, hEF]
      rw [iht]
      simp [extraWeight, hEF]

theorem scoreConfirmed_clean (rules : List Rule) (l : List String)
    (hcl : ∀ f ∈ l, EXTRA_FLAGS f ≠ ExtraLookup.inherited) :
    (scoreConfirmed rules l).1 =
      JsNum.num (scoreRulesNat rules l + (l.map extraWeight).sum) := by
  unfold scoreConfirmed
  rcases hsr : scoreRules rules l with ⟨s1, rs1⟩
  have hs1 : s1 = JsNum.num (scoreRulesNat rules l) := by
    have hfst := scoreRules_fst rules l
    rw [hsr] at hfst
    exact hfst
  rw [hs1]
  exact foldl_extraStep_clean l hcl _ rs1

theorem sum_map_ite (l : List String) (a : String) (w : Nat) :
    (l.map (fun f => if a = f then w else 0)).sum = l.count a * w := by
  induction l with
  | nil => simp
  | cons b t ih =>
    by_cases hab : a = b
    · subst hab
      simp only [List.map_cons, List.sum_cons, eq_self_iff_true, if_true, ih,
        List.count_cons_self]
      ring
    · simp [hab, ih, List.count_cons_of_ne hab]

theorem ruleIdWeight_cons (r : Rule) (rs : List Rule) (f : String) :
    ruleIdWeight (r :: rs) f = (if r.id = f then r.weight else 0) + ruleIdWeight rs f := by
  by_cases h : r.id = f <;> simp [ruleIdWeight, h]

theorem nodup_sum_rules (rules : List Rule) (l : List String) (h : l.Nodup) :
    (l.map (ruleIdWeight rules)).sum =
      (rules.map (fun r => if r.id ∈ l then r.weight else 0)).sum := by
  induction rules with
  | nil =>
    simp only [List.map_nil, List.sum_nil]
    apply List.sum_eq_zero
    intro x hx
    obtain ⟨f, _, rfl⟩ := List.mem_map.mp hx
    simp [ruleIdWeight]
  | cons r rs ih =>
    have hsplit : (l.map (ruleIdWeight (r :: rs))).sum =
        (l.map (fun f => if r.id = f then r.weight else 0)).sum + (l.map (ruleIdWeight rs)).sum := by
      rw [← sumMapAdd]
      apply congrArg
      apply List.map_congr_left
      intro f _
      exact ruleIdWeight_cons r rs f
    rw [hsplit, ih, sum_map_ite, List.map_cons, List.sum_cons]
    by_cases hm : r.id ∈ l
    · rw [List.count_eq_one_of_mem h hm, if_pos hm, one_mul]
    · rw [List.count_eq_zero_of_not_mem hm, if_neg hm, zero_mul]

theorem scoreConfirmed_eq_spec (rules : List Rule) (l : List String) (h : l.Nodup)
    (hcl : ∀ f ∈ l, EXTRA_FLAGS f ≠ ExtraLookup.inherited) :
    (scoreConfirmed rules l).1 = JsNum.num (specWeightSum rules l) := by
  rw [scoreConfirmed_clean rules l hcl]
  congr 1
  unfold specWeightSum flagWeight scoreRulesNat
  rw [sumMapAdd, nodup_sum_rules rules l h]

theorem foldl_ruleStep_congr (l1 l2 : List String) (rules : List Rule)
    (h : ∀ r ∈ rules, (r.id ∈ l1 ↔ r.id ∈ l2)) :
    ∀ acc : JsNum × List (Option String),
      rules.foldl (ruleStep l1) acc = rules.foldl (ruleStep l2) acc := by
  induction rules with
  | nil => intro acc; rfl
  | cons r rs ih =>
    intro acc
    have hr := h r (List.mem_cons_self r rs)
    have hstep : ruleStep l1 acc r = ruleStep l2 acc r := by
      unfold ruleStep
      by_cases h1 : r.id ∈ l1
      · rw [if_pos h1, if_pos (hr.mp h1)]
      · rw [if_neg h1, if_neg (fun h2 => h1 (hr.mpr h2))]
    simp only [List.foldl_cons, hstep]
    exact ih (fun r hrm => h r (List.mem_cons_of_mem _ hrm)) _

theorem scoreRules_congr (rules : List Rule) (l1 l2 : List String)
    (h : ∀ r ∈ rules, (r.id ∈ l1 ↔ r.id ∈ l2)) :
    scoreRules rules l1 = scoreRules rules l2 := by
  unfold scoreRules
  exact foldl_ruleStep_congr l1 l2 rules h _

theorem foldl_extraStep_filter_handled (rules : List Rule) (l : List String) :
    ∀ acc : JsNum × List (Option String),
      (l.filter (isHandledFlag rules)).foldl extraStep acc = l.foldl extraStep acc := by
  induction l with
  | nil => intro acc; rfl
  | cons f t ih =>
    intro acc
    by_cases hk : isHandledFlag rules f = true
    · rw [List.filter_cons_of_pos hk]
      simp only [List.foldl_cons]
      exact ih _
    · have hEF : EXTRA_FLAGS f = ExtraLookup.undefined := by
        unfold isHandledFlag extraFlagTruthy at hk
        cases hE : EXTRA_FLAGS f with
        | undefined => rfl
        | own e => rw [hE] at hk; simp at hk
        | inherited => rw [hE] at hk; simp at hk
      rw [List.filter_cons_of_neg hk]
      simp only [List.foldl_cons, extraStep, hEF]
      exact ih _

theorem mem_filter_handled (rules : List Rule) (l : List String) (r : Rule) (hr : r ∈ rules) :
    r.id ∈ l.filter (isHandledFlag rules) ↔ r.id ∈ l := by
  rw [List.mem_filter]
  constructor
  · exact fun h => h.1
  · intro h
    refine ⟨h, ?_⟩
    unfold isHandledFlag
    have : rules.any (fun rr => rr.id = r.id) = true :=
      List.any_eq_true.mpr ⟨r, hr, by simp⟩
    simp [this]

theorem scoreConfirmed_filter_handled (rules : List Rule) (l : List String) :
    scoreConfirmed rules (l.filter (isHandledFlag rules)) = scoreConfirmed rules l := by
  unfold scoreConfirmed
  rw [scoreRules_congr rules (l.filter (isHandledFlag rules)) l
    (fun r hr => mem_filter_handled rules l r hr)]
  exact foldl_extraStep_filter_handled rules l _

theorem extras_sum_counts (l : List String) :
    (l.map extraWeight).sum =
      l.count "pancreatic_cancer" * 45 + l.count "pancreas_melanoma_pattern" * 15 := by
  induction l with
  | nil => simp
  | cons f t ih =>
    simp only [List.map_cons, List.sum_cons, ih]
    by_cases h1 : f = "pancreatic_cancer"
    · subst h1
      simp [extraWeight, EXTRA_FLAGS, List.count_cons]
      ring
    · by_cases h2 : f = "pancreas_melanoma_pattern"
      · subst h2
        simp [extraWeight, EXTRA_FLAGS, List.count_cons]
        ring
      · have hw : extraWeight f = 0 := by
          unfold extraWeight EXTRA_FLAGS
          rw [if_neg h1, if_neg h2]
          by_cases hp : f ∈ objectPrototypeNames
          · rw [if_pos hp]
          · rw [if_neg hp]
        simp [hw, List.count_cons_of_ne (fun h => h1 h.symm) ,
          List.count_cons_of_ne (fun h => h2 h.symm)]

/-- The payload of the repository test "empty confirmed_flags => treated as
Step 1 (pending confirmation)". -/
def c1Payload : Payload :=
  { pathway := some "oncogenetics", patient_age := some 45, patient_sex := some "female",
    chief_concern := some "Family history concern", clinical_notes := some "",
    family_history_summary := some "Mother had breast cancer.",
    confirmed_flags := some ([] : List String) }

/-- C1: the claim (and the repository's own test) say an explicitly empty
confirmed-indicator list is Step 1 (`propose_flags`, null score, triage
`pending_confirmation`); the code instead treats every array — even an empty
one — as Step 2 and returns mode `confirmed_flags`, score 0 and triage
`not_prioritized` on the test payload. -/
theorem c1_empty_confirmed_is_scored :
    (assessCase env0 c1Payload).2.map
        (fun r => (r.used_mode, r.priority_score, r.triage)) =
      some ("confirmed_flags", some (JsNum.num 0), "not_prioritized") := by
  decide

/-- C9: two invocations with identical input agree on every envelope field
except the case identifier and creation timestamp; in particular on
priority_score, triage, reasons, suggested_flags, used_flags, missing_info and
next_steps. -/
theorem c9_deterministic_modulo_envelope (e1 e2 : Env) (p : Payload) :
    (assessCase e1 p).2.map coreFields = (assessCase e2 p).2.map coreFields := by
  rw [assessCase_snd, assessCase_snd]
  cases hd : detectSuggestedFlagsAndMaybeScore (mutatePayload p) with
  | none => rfl
  | some d =>
    simp only [Option.map_some']
    cases hs : d.score with
    | none =>
      rw [buildResult_step1 e1 _ d hs, buildResult_step1 e2 _ d hs]
      rfl
    | some sc =>
      rw [buildResult_step2 e1 _ d sc hs, buildResult_step2 e2 _ d sc hs]
      rfl

/-- C3: for every Step-2 result, the triage equals the threshold formula
applied to the returned (clamped) score: at least 70 gives `recommended`, at
most 20 gives `not_prioritized`, anything strictly between gives `discuss`;
in particular the code's triage function maps 70 to `recommended`, 20 to
`not_prioritized` and 21 to `discuss`. -/
theorem c3_triage_thresholds (env : Env) (p : Payload) (s : Nat)
    (h : (assessCase env p).2.map CaseResult.priority_score =
      some (some (JsNum.num s))) :
    (assessCase env p).2.map CaseResult.triage =
      some (if s ≥ 70 then "recommended" else if s ≤ 20 then "not_prioritized"
        else "discuss") ∧
    triageOf (JsNum.num 70) = "recommended" ∧
    triageOf (JsNum.num 20) = "not_prioritized" ∧
    triageOf (JsNum.num 21) = "discuss" := by
  refine ⟨?_, rfl, rfl, rfl⟩
  rw [assessCase_snd] at h ⊢
  cases hd : detectSuggestedFlagsAndMaybeScore (mutatePayload p) with
  | none => rw [hd] at h; simp at h
  | some d =>
    rw [hd] at h
    simp only [Option.map_some'] at h ⊢
    cases hs : d.score with
    | none =>
      rw [buildResult_step1 env _ d hs] at h
      simp at h
    | some sc =>
      rw [buildResult_step2 env _ d sc hs] at h ⊢
      have hscs : sc = JsNum.num s := by simpa using h
      subst hscs
      simp [triageOf]

theorem buildResult_pathway (env : Env) (p2 : Payload) (d : DetectOut) :
    (buildResult env p2 d).pathway = safeStr p2.pathway := by
  cases h : d.score with
  | none => rw [buildResult_step1 env p2 d h]
  | some sc => rw [buildResult_step2 env p2 d sc h]

/-- C7: whenever a Step-2 triage resolves to `not_prioritized`, the next-step
list is replaced by the two-item no-referral message; the missing-information
list is cleared on every pathway except prenatal, and kept exactly equal to
the advisory output on the prenatal pathway. -/
theorem c7_not_prioritized_suppression (env : Env) (p : Payload)
    (h : (assessCase env p).2.map CaseResult.triage = some "not_prioritized") :
    (assessCase env p).2.map CaseResult.next_steps =
      some ["No genetic referral needed based on current information.",
            "Reassess if new family history or clinical findings appear."] ∧
    (effPath p ≠ "prenatal" → (assessCase env p).2.map CaseResult.missing_info = some []) ∧
    (effPath p = "prenatal" →
      (assessCase env p).2.map CaseResult.missing_info =
        some (missingInfo (assessCase env p).1)) := by
  rw [assessCase_snd] at h
  rw [assessCase_snd, assessCase_fst]
  cases hd : detectSuggestedFlagsAndMaybeScore (mutatePayload p) with
  | none => rw [hd] at h; simp at h
  | some d =>
    rw [hd] at h
    simp only [Option.map_some'] at h ⊢
    cases hs : d.score with
    | none =>
      rw [buildResult_step1 env _ d hs] at h
      have hbad : ("pending_confirmation" : String) = "not_prioritized" := by simp at h
      exact absurd hbad (by decide)
    | some sc =>
      rw [buildResult_step2 env _ d sc hs] at h ⊢
      have htr : triageOf sc = "not_prioritized" := by simpa using h
      refine ⟨?_, ?_, ?_⟩
      · simp only [Option.some.injEq]
        rw [if_pos htr]
      · intro hp
        simp only [Option.some.injEq]
        rw [if_pos ⟨htr, by rw [toLowerTrim_mutatePayload]; exact hp⟩]
      · intro hp
        simp only [Option.some.injEq]
        rw [if_neg (fun hcon => hcon.2 ((toLowerTrim_mutatePayload p).trans hp))]

/-- The counterexample payload for C6: an unrecognized pathway together with
the free-text findings shape that `normalizePrenatalFindings` supports. -/
def c6Payload : Payload :=
  { pathway := some "bogus", prenatal_findings := some (FindingsVal.str "nipt") }

/-- C6 counterexample: on a payload with an unknown pathway and non-empty
free-text `prenatal_findings`, `assessCase` throws (its `collectText` calls
`.join` on a string), so it does not return a defined result object for every
input payload with an invalid pathway. -/
theorem c6_counterexample : (assessCase env0 c6Payload).2 = none := by decide

/-- C6 (amended): unless the payload carries a non-empty free-text
`prenatal_findings` value on a non-prenatal effective pathway, or an effective
pathway string that is an inherited `Object.prototype` member (such as
"constructor" or "__proto__", on which the registry lookup returns a truthy
non-array and the rule iteration throws), the engine never throws — for any
pathway string, including unknown or absent ones — and it defaults the pathway
to `oncogenetics` when the pathway is absent, while `RULES` yields the empty
own rule list for every other unrecognized pathway string. -/
theorem c6_amended (env : Env) (p : Payload)
    (h : (∀ s, p.prenatal_findings = some (FindingsVal.str s) → s = "") ∨
      effPath p = "prenatal")
    (hpr : RULES (effPath p) ≠ RulesLookup.inherited) :
    ((assessCase env p).2).isSome = true ∧
    (p.pathway = none → (assessCase env p).2.map CaseResult.pathway = some "oncogenetics") ∧
    (∀ s, s ≠ "oncogenetics" → s ≠ "prenatal" → s ≠ "pediatric" →
      s ∉ objectPrototypeNames → RULES s = RulesLookup.own []) := by
  have hjoin : prenatalJoin (mutatePayload p).prenatal_findings ≠ none := by
    by_cases hp : effPath p = "prenatal"
    · rw [mutatePayload_findings_prenatal p hp]
      simp [prenatalJoin]
    · rw [mutatePayload_findings_other p hp]
      rcases h with hws | hpre
      · cases hf : p.prenatal_findings with
        | none => simp [prenatalJoin]
        | some v =>
          cases v with
          | list l => simp [prenatalJoin]
          | str s =>
            have hse : s = "" := hws s hf
            subst hse
            simp [prenatalJoin]
      · exact absurd hpre hp
  have hct : ∃ t, collectText (mutatePayload p) = some t := by
    unfold collectText
    cases hj : prenatalJoin (mutatePayload p).prenatal_findings with
    | none => exact absurd hj hjoin
    | some pf => exact ⟨_, rfl⟩
  obtain ⟨t, hct⟩ := hct
  have hRe : RULES (toLowerTrim (mutatePayload p).pathway) = RULES (effPath p) := by
    rw [toLowerTrim_mutatePayload]
  have hdet : ∃ d, detectSuggestedFlagsAndMaybeScore (mutatePayload p) = some d := by
    cases hR : RULES (effPath p) with
    | inherited => exact absurd hR hpr
    | own rules =>
      have hr2 : RULES (toLowerTrim (mutatePayload p).pathway) = RulesLookup.own rules := by
        rw [hRe, hR]
      cases hcf : (mutatePayload p).confirmed_flags with
      | none => exact ⟨_, detect_propose _ t rules hct hr2 hcf⟩
      | some l => exact ⟨_, detect_confirmed _ t rules _ hct hr2 hcf⟩
  obtain ⟨d, hd⟩ := hdet
  refine ⟨?_, ?_, ?_⟩
  · rw [assessCase_snd, hd]
    rfl
  · intro hnone
    rw [assessCase_snd, hd]
    simp only [Option.map_some', Option.some.injEq]
    rw [buildResult_pathway, mutatePayload_pathway, hnone]
    rfl
  · intro s h1 h2 h3 h4
    simp [RULES, h1, h2, h3, h4]

/-- The all-absent payload used to exhibit the C8 mutation. -/
def c8Payload : Payload := {}

/-- C8 counterexample: `assessCase` mutates the payload it receives — on a
payload with no pathway field, the payload object afterwards carries the
defaulted pathway, so the intake is not immutable input. -/
theorem c8_payload_mutated : (assessCase env0 c8Payload).1 ≠ c8Payload := by decide

/-- C8 (amended): the only payload fields `assessCase` writes are the pathway
(overwritten with its defaulted value) and, on the prenatal effective pathway,
the findings list (replaced by the normalized token list); every other field
of the payload is left unchanged. -/
theorem c8_mutation_extent (env : Env) (p : Payload) :
    (assessCase env p).1.pathway = some (jsOrStr p.pathway "oncogenetics") ∧
    (effPath p = "prenatal" →
      (assessCase env p).1.prenatal_findings = some (FindingsVal.list
        (normalizePrenatalFindings p.prenatal_findings p.clinical_notes
          p.family_history_summary))) ∧
    (effPath p ≠ "prenatal" → (assessCase env p).1.prenatal_findings = p.prenatal_findings) ∧
    (assessCase env p).1.patient_sex = p.patient_sex ∧
    (assessCase env p).1.patient_age = p.patient_age ∧
    (assessCase env p).1.patient_file_number = p.patient_file_number ∧
    (assessCase env p).1.chief_concern = p.chief_concern ∧
    (assessCase env p).1.clinical_notes = p.clinical_notes ∧
    (assessCase env p).1.family_history_summary = p.family_history_summary ∧
    (assessCase env p).1.family_history_red_flags = p.family_history_red_flags ∧
    (assessCase env p).1.pregnancy_status = p.pregnancy_status ∧
    (assessCase env p).1.gestational_weeks = p.gestational_weeks ∧
    (assessCase env p).1.pediatric_red_flags = p.pediatric_red_flags ∧
    (assessCase env p).1.hpo_terms = p.hpo_terms ∧
    (assessCase env p).1.confirmed_flags = p.confirmed_flags := by
  rw [assessCase_fst]
  obtain ⟨h1, h2, h3, h4, h5, h6, h7, h8, h9, h10, h11, h12⟩ := mutatePayload_rest p
  exact ⟨mutatePayload_pathway p, mutatePayload_findings_prenatal p,
    mutatePayload_findings_other p, h1, h2, h3, h4, h5, h6, h7, h8, h9, h10, h11, h12⟩

set_option maxHeartbeats 1600000 in
/-- C5: the prenatal-findings expansion runs exactly on the prenatal effective
pathway, replacing the raw findings field by the normalized token list before
detection and leaving it untouched otherwise; membership in the normalized
list is exactly: a trimmed non-empty structured finding, or the canonical
token of a synonym group whose synonyms occur in the combined
findings/notes/family-history text — in particular `positive_screening` is
added exactly when the text contains "nipt" and also "positive" or
"high risk". -/
theorem c5_prenatal_normalization :
    (∀ (env : Env) (p : Payload), effPath p = "prenatal" →
      (assessCase env p).1.prenatal_findings = some (FindingsVal.list
        (normalizePrenatalFindings p.prenatal_findings p.clinical_notes
          p.family_history_summary))) ∧
    (∀ (env : Env) (p : Payload), effPath p ≠ "prenatal" →
      (assessCase env p).1.prenatal_findings = p.prenatal_findings) ∧
    (∀ (fs : Option FindingsVal) (notes fh : Option String) (x : String),
      x ∈ normalizePrenatalFindings fs notes fh ↔
        (x ∈ ((prenatalStructured fs).map toLowerTrimStr).filter (fun s => s ≠ "") ∨
         (x = "previous_aneuploidy" ∧
           (strIncludes (prenatalText fs notes fh) "trisomy 21" ||
            strIncludes (prenatalText fs notes fh) "t21" ||
            strIncludes (prenatalText fs notes fh) "down syndrome") = true) ∨
         (x = "increased_nt" ∧
           (strIncludes (prenatalText fs notes fh) "nuchal" ||
            strIncludes (prenatalText fs notes fh) "nt" ||
            strIncludes (prenatalText fs notes fh) "translucency") = true) ∨
         (x = "abnormal_ultrasound" ∧
           (strIncludes (prenatalText fs notes fh) "ultrasound" ||
            strIncludes (prenatalText fs notes fh) "anomaly" ||
            strIncludes (prenatalText fs notes fh) "malformation") = true) ∨
         (x = "positive_screening" ∧
           (strIncludes (prenatalText fs notes fh) "nipt" &&
            (strIncludes (prenatalText fs notes fh) "positive" ||
             strIncludes (prenatalText fs notes fh) "high risk")) = true))) := by
  refine ⟨?_, ?_, ?_⟩
  · intro env p hp
    rw [assessCase_fst]
    exact mutatePayload_findings_prenatal p hp
  · intro env p hp
    rw [assessCase_fst]
    exact mutatePayload_findings_other p hp
  · intro fs notes fh x
    simp only [normalizePrenatalFindings]
    by_cases h1 : (strIncludes (prenatalText fs notes fh) "trisomy 21" ||
        strIncludes (prenatalText fs notes fh) "t21" ||
        strIncludes (prenatalText fs notes fh) "down syndrome") = true <;>
    by_cases h2 : (strIncludes (prenatalText fs notes fh) "nuchal" ||
        strIncludes (prenatalText fs notes fh) "nt" ||
        strIncludes (prenatalText fs notes fh) "translucency") = true <;>
    by_cases h3 : (strIncludes (prenatalText fs notes fh) "ultrasound" ||
        strIncludes (prenatalText fs notes fh) "anomaly" ||
        strIncludes (prenatalText fs notes fh) "malformation") = true <;>
    by_cases h4 : (strIncludes (prenatalText fs notes fh) "nipt" &&
        (strIncludes (prenatalText fs notes fh) "positive" ||
         strIncludes (prenatalText fs notes fh) "high risk")) = true <;>
    simp only [h1, h2, h3, h4, eq_self_iff_true, if_true, Bool.false_eq_true, if_false,
      mem_addUnique, mem_jsDedup, and_true, and_false, or_false] <;>
    tauto

/-- The payload refuting C2 as stated: the Nodup confirmed list ["toString"]
has known-weight sum 0, but the unguarded `EXTRA_FLAGS` lookup finds the
inherited `Object.prototype.toString`, and `score += undefined` returns NaN. -/
def c2BadPayload : Payload :=
  { pathway := some "oncogenetics", confirmed_flags := some ["toString"] }

/-- C2 counterexample: a duplicate-free confirmed list whose known weights sum
to 0 (at most 100) is scored NaN, not the exact sum — the returned score is
neither the weight sum nor inside [0, 100]. -/
theorem c2_nan_counterexample :
    (["toString"] : List String).Nodup ∧
    specWeightSum oncogeneticsRules ["toString"] = 0 ∧
    (assessCase env0 c2BadPayload).2.map CaseResult.priority_score =
      some (some JsNum.nan) ∧
    JsNum.nan ≠ JsNum.num 0 := by
  decide

/-- C2 (amended): on a Step-2 invocation whose confirmed list is a set
(duplicate-free) containing no `Object.prototype` property name (on those the
unguarded `EXTRA_FLAGS[f]` lookup poisons the score to NaN), the returned
priority_score is exactly the clamped sum of the weights of the confirmed
indicators known in the given pathway: the exact sum when it is at most 100,
and 100 when the sum exceeds 100; the score never exceeds 100. -/
theorem c2_clamped_weight_sum (env : Env) (p : Payload) (l : List String)
    (rules : List Rule) (h0 : RULES (effPath p) = RulesLookup.own rules)
    (h1 : p.confirmed_flags = some l) (h2 : l.Nodup)
    (h3 : ∀ f ∈ l, EXTRA_FLAGS f ≠ ExtraLookup.inherited)
    (h4 : ((assessCase env p).2).isSome = true) :
    (assessCase env p).2.map CaseResult.priority_score =
      some (some (JsNum.num (min (specWeightSum rules l) 100))) ∧
    (specWeightSum rules l ≤ 100 →
      min (specWeightSum rules l) 100 = specWeightSum rules l) ∧
    (100 < specWeightSum rules l → min (specWeightSum rules l) 100 = 100) ∧
    min (specWeightSum rules l) 100 ≤ 100 := by
  refine ⟨?_, fun h => by omega, fun h => by omega, by omega⟩
  have hcf : (mutatePayload p).confirmed_flags = some l := by
    rw [mutatePayload_confirmed, h1]
  have hr : RULES (toLowerTrim (mutatePayload p).pathway) = RulesLookup.own rules := by
    rw [toLowerTrim_mutatePayload, h0]
  rw [assessCase_snd] at h4 ⊢
  cases hct : collectText (mutatePayload p) with
  | none => rw [detect_none _ hct] at h4; simp at h4
  | some t =>
    rw [detect_confirmed _ t rules l hct hr hcf]
    simp only [Option.map_some', Option.some.injEq]
    rw [buildResult_step2 env _ _ _ rfl]
    rw [scoreConfirmed_eq_spec rules l h2 h3]
    rfl

/-- The payload with its confirmed-indicator list replaced. -/
def withConfirmed (p : Payload) (c : List String) : Payload :=
  { p with confirmed_flags := some c }

/-- The payload refuting C4 as stated: the unknown id "toString" matches no
oncogenetics rule and no extra indicator, yet the prototype lookup scores it. -/
def c4BadPayload : Payload :=
  { pathway := some "oncogenetics",
    confirmed_flags := some ["multiple_primaries", "toString"] }

/-- C4 counterexample: "toString" matches neither a registry rule of the
oncogenetics pathway nor an extra indicator, but it is not ignored — it
poisons the score to NaN and pushes an `undefined` rationale entry, so the
scored result differs from the one with the unknown id removed. -/
theorem c4_nan_counterexample :
    oncogeneticsRules.any (fun r => r.id = "toString") = false ∧
    isExtraIndicator "toString" = false ∧
    (assessCase env0 c4BadPayload).2.map CaseResult.priority_score =
      some (some JsNum.nan) ∧
    (assessCase env0 { c4BadPayload with confirmed_flags := some ["multiple_primaries"] }).2.map
        CaseResult.priority_score = some (some (JsNum.num 25)) ∧
    scoreConfirmed oncogeneticsRules ["multiple_primaries", "toString"] ≠
      scoreConfirmed oncogeneticsRules ["multiple_primaries"] := by
  decide

/-- C4 (amended): Step-2 scoring silently ignores every confirmed id that the
lookup leaves unhandled — one matching neither a registry rule of the given
pathway, nor an extra indicator, nor an inherited `Object.prototype` property
name: the scoring pass (weight accumulation and rationale) of a confirmed list
equals that of the list with those unhandled ids removed, and so do the score
and rationale of the full detection step. -/
theorem c4_unknown_ids_ignored :
    (∀ (pw : String) (rules : List Rule) (l : List String),
      RULES pw = RulesLookup.own rules →
      scoreConfirmed rules (l.filter (isHandledFlag rules)) = scoreConfirmed rules l) ∧
    (∀ (p : Payload) (rules : List Rule) (l : List String),
      RULES (toLowerTrim p.pathway) = RulesLookup.own rules →
      p.confirmed_flags = some l →
      (detectSuggestedFlagsAndMaybeScore
          (withConfirmed p (l.filter (isHandledFlag rules)))).map
          (fun d => (d.score, d.reasons)) =
        (detectSuggestedFlagsAndMaybeScore p).map (fun d => (d.score, d.reasons))) := by
  refine ⟨fun pw rules l _ => scoreConfirmed_filter_handled rules l, ?_⟩
  intro p rules l hr hcf
  have hctEq : collectText (withConfirmed p (l.filter (isHandledFlag rules))) =
      collectText p := rfl
  have hrEq : RULES (toLowerTrim (withConfirmed p
      (l.filter (isHandledFlag rules))).pathway) =
      RULES (toLowerTrim p.pathway) := rfl
  cases hct : collectText p with
  | none =>
    rw [detect_none _ (hctEq.trans hct), detect_none _ hct]
  | some t =>
    have hcf2 : (withConfirmed p (l.filter (isHandledFlag rules))).confirmed_flags =
        some (l.filter (isHandledFlag rules)) := rfl
    rw [detect_confirmed _ t rules _ (hctEq.trans hct) (hrEq.trans hr) hcf2,
      detect_confirmed _ t rules l hct hr hcf]
    simp only [Option.map_some', Option.some.injEq]
    rw [scoreConfirmed_filter_handled rules l]

theorem scoreConfirmed_counts (rules : List Rule) (l : List String)
    (hcl : ∀ f ∈ l, EXTRA_FLAGS f ≠ ExtraLookup.inherited) :
    (scoreConfirmed rules l).1 =
      JsNum.num (scoreRulesNat rules l +
        (l.count "pancreatic_cancer" * 45 + l.count "pancreas_melanoma_pattern" * 15)) := by
  rw [scoreConfirmed_clean rules l hcl, extras_sum_counts]

theorem count_ge_ite (l : List String) (a : String) :
    (if a ∈ l then 1 else 0) ≤ l.count a := by
  split
  case isTrue h =>
    have hne : l.count a ≠ 0 := fun h0 => (List.count_eq_zero.mp h0) h
    omega
  case isFalse h => exact Nat.zero_le _

/-- C10 counterexample: a confirmed list that repeats `pancreatic_cancer` but
also contains the unknown prototype name "toString" scores NaN, and so does
its de-duplicated version, so the repeated list is not strictly higher (the JS
`<` comparison on NaN is false). -/
theorem c10_nan_counterexample :
    isExtraIndicator "pancreatic_cancer" = true ∧
    2 ≤ (["pancreatic_cancer", "pancreatic_cancer", "toString"] : List String).count
      "pancreatic_cancer" ∧
    (scoreConfirmed oncogeneticsRules
      (["pancreatic_cancer", "pancreatic_cancer", "toString"] : List String).dedup).1 =
      JsNum.nan ∧
    (scoreConfirmed oncogeneticsRules
      ["pancreatic_cancer", "pancreatic_cancer", "toString"]).1 = JsNum.nan ∧
    jsLt (scoreConfirmed oncogeneticsRules
        (["pancreatic_cancer", "pancreatic_cancer", "toString"] : List String).dedup).1
      (scoreConfirmed oncogeneticsRules
        ["pancreatic_cancer", "pancreatic_cancer", "toString"]).1 = false := by
  decide

/-- C10 (amended): a registry rule adds its weight by a membership test, so its
contribution depends only on which ids occur in the confirmed list, while each
occurrence of an extra-indicator id adds its weight again (45 per
`pancreatic_cancer` occurrence, 15 per `pancreas_melanoma_pattern`
occurrence), provided no confirmed id is an inherited `Object.prototype`
property name (those poison the score to NaN); under that proviso a confirmed
list repeating an extra-indicator id scores strictly higher before clamping
than its de-duplicated version. -/
theorem c10_extras_per_occurrence :
    (∀ (pw : String) (rules : List Rule) (l1 l2 : List String),
      RULES pw = RulesLookup.own rules → (∀ x, x ∈ l1 ↔ x ∈ l2) →
      (scoreRules rules l1).1 = (scoreRules rules l2).1) ∧
    (∀ (pw : String) (rules : List Rule) (l : List String),
      RULES pw = RulesLookup.own rules →
      (∀ f ∈ l, EXTRA_FLAGS f ≠ ExtraLookup.inherited) →
      (scoreConfirmed rules l).1 =
        JsNum.num (scoreRulesNat rules l +
          (l.count "pancreatic_cancer" * 45 + l.count "pancreas_melanoma_pattern" * 15))) ∧
    (∀ (pw : String) (rules : List Rule) (l : List String) (e : String),
      RULES pw = RulesLookup.own rules →
      (∀ f ∈ l, EXTRA_FLAGS f ≠ ExtraLookup.inherited) →
      isExtraIndicator e = true → 2 ≤ l.count e →
      jsLt (scoreConfirmed rules l.dedup).1 (scoreConfirmed rules l).1 = true) := by
  refine ⟨?_, ?_, ?_⟩
  · intro pw rules l1 l2 _ h
    rw [scoreRules_congr rules l1 l2 (fun r _ => h r.id)]
  · intro pw rules l _ hcl
    exact scoreConfirmed_counts rules l hcl
  · intro pw rules l e _ hcl hE hcnt
    have hclD : ∀ f ∈ l.dedup, EXTRA_FLAGS f ≠ ExtraLookup.inherited :=
      fun f hf => hcl f (List.mem_dedup.mp hf)
    have hrn : scoreRulesNat rules l.dedup = scoreRulesNat rules l := by
      unfold scoreRulesNat
      congr 1
      apply List.map_congr_left
      intro r _
      simp [List.mem_dedup]
    rw [scoreConfirmed_counts rules l.dedup hclD, scoreConfirmed_counts rules l hcl,
      hrn, List.count_dedup, List.count_dedup]
    simp only [jsLt, decide_eq_true_eq]
    have he : e = "pancreatic_cancer" ∨ e = "pancreas_melanoma_pattern" := by
      by_cases ha : e = "pancreatic_cancer"
      · exact Or.inl ha
      · by_cases hb : e = "pancreas_melanoma_pattern"
        · exact Or.inr hb
        · exfalso
          unfold isExtraIndicator EXTRA_FLAGS at hE
          rw [if_neg ha, if_neg hb] at hE
          by_cases hp : e ∈ objectPrototypeNames
          · rw [if_pos hp] at hE
            simp at hE
          · rw [if_neg hp] at hE
            simp at hE
    rcases he with rfl | rfl
    · have hmem : "pancreatic_cancer" ∈ l := by
        by_contra hn
        rw [List.count_eq_zero_of_not_mem hn] at hcnt
        omega
      rw [if_pos hmem]
      have hle := count_ge_ite l "pancreas_melanoma_pattern"
      omega
    · have hmem : "pancreas_melanoma_pattern" ∈ l := by
        by_contra hn
        rw [List.count_eq_zero_of_not_mem hn] at hcnt
        omega
      rw [if_pos hmem]
      have hle := count_ge_ite l "pancreatic_cancer"
      omega

/-- Concrete Step-2 payload whose confirmed weights sum to 70. -/
def c2Payload : Payload :=
  { pathway := some "oncogenetics",
    confirmed_flags := some ["early_onset_cancer", "multiple_relatives_cancer"] }

theorem c2_clamped_weight_sum_witness :
    specWeightSum oncogeneticsRules
        ["early_onset_cancer", "multiple_relatives_cancer"] = 70 ∧
    (assessCase env0 c2Payload).2.map CaseResult.priority_score =
      some (some (JsNum.num (min (specWeightSum oncogeneticsRules
        ["early_onset_cancer", "multiple_relatives_cancer"]) 100))) :=
  ⟨by decide, (c2_clamped_weight_sum env0 c2Payload _ oncogeneticsRules rfl rfl
    (by decide) (by decide) (by decide)).1⟩

/-- Concrete Step-2 payload scoring 25. -/
def c3Payload : Payload :=
  { pathway := some "oncogenetics", confirmed_flags := some ["multiple_primaries"] }

theorem c3_triage_thresholds_witness :
    (assessCase env0 c3Payload).2.map CaseResult.priority_score =
      some (some (JsNum.num 25)) ∧
    (assessCase env0 c3Payload).2.map CaseResult.triage =
      some (if 25 ≥ 70 then "recommended" else if 25 ≤ 20 then "not_prioritized"
        else "discuss") :=
  ⟨by decide, (c3_triage_thresholds env0 c3Payload 25 (by decide)).1⟩

/-- Concrete Step-2 payload whose confirmed list contains an unknown id. -/
def c4Payload : Payload :=
  { pathway := some "oncogenetics",
    confirmed_flags := some ["multiple_primaries", "totally_unknown_id"] }

theorem c4_unknown_ids_ignored_witness :
    c4Payload.confirmed_flags = some ["multiple_primaries", "totally_unknown_id"] ∧
    (["multiple_primaries", "totally_unknown_id"].filter
        (isHandledFlag oncogeneticsRules)) = ["multiple_primaries"] ∧
    (detectSuggestedFlagsAndMaybeScore (withConfirmed c4Payload
        (["multiple_primaries", "totally_unknown_id"].filter
          (isHandledFlag oncogeneticsRules)))).map
        (fun d => (d.score, d.reasons)) =
      (detectSuggestedFlagsAndMaybeScore c4Payload).map (fun d => (d.score, d.reasons)) :=
  ⟨rfl, by decide, c4_unknown_ids_ignored.2 c4Payload oncogeneticsRules _ rfl rfl⟩

/-- Concrete prenatal payload whose notes mention a positive NIPT. -/
def c5Payload : Payload :=
  { pathway := some "prenatal", clinical_notes := some "NIPT positive for trisomy 21" }

theorem c5_prenatal_normalization_witness :
    effPath c5Payload = "prenatal" ∧
    (assessCase env0 c5Payload).1.prenatal_findings = some (FindingsVal.list
      (normalizePrenatalFindings c5Payload.prenatal_findings c5Payload.clinical_notes
        c5Payload.family_history_summary)) ∧
    "positive_screening" ∈ normalizePrenatalFindings c5Payload.prenatal_findings
      c5Payload.clinical_notes c5Payload.family_history_summary :=
  ⟨by decide, c5_prenatal_normalization.1 env0 c5Payload (by decide),
   (c5_prenatal_normalization.2.2 c5Payload.prenatal_findings c5Payload.clinical_notes
      c5Payload.family_history_summary "positive_screening").mpr (by decide)⟩

/-- Concrete payload with an unknown pathway and well-formed findings. -/
def c6GoodPayload : Payload := { pathway := some "weird_path" }

theorem c6_amended_witness :
    ((assessCase env0 c6GoodPayload).2).isSome = true ∧
    RULES "weird_path" = RulesLookup.own [] ∧
    (assessCase env0 ({} : Payload)).2.map CaseResult.pathway = some "oncogenetics" :=
  ⟨(c6_amended env0 c6GoodPayload (Or.inl (fun s h => Option.noConfusion h))
      (by decide)).1,
   (c6_amended env0 c6GoodPayload (Or.inl (fun s h => Option.noConfusion h))
      (by decide)).2.2
     "weird_path" (by decide) (by decide) (by decide) (by decide),
   (c6_amended env0 ({} : Payload) (Or.inl (fun s h => Option.noConfusion h))
      (by decide)).2.1 rfl⟩

/-- Concrete Step-2 payload scoring 15 (below the 20 threshold). -/
def c7Payload : Payload :=
  { pathway := some "oncogenetics", confirmed_flags := some ["pancreas_melanoma_pattern"] }

/-- The prenatal counterpart of `c7Payload`. -/
def c7PrenatalPayload : Payload :=
  { pathway := some "prenatal", confirmed_flags := some ["pancreas_melanoma_pattern"] }

theorem c7_not_prioritized_suppression_witness :
    (assessCase env0 c7Payload).2.map CaseResult.triage = some "not_prioritized" ∧
    (assessCase env0 c7Payload).2.map CaseResult.next_steps =
      some ["No genetic referral needed based on current information.",
            "Reassess if new family history or clinical findings appear."] ∧
    (assessCase env0 c7Payload).2.map CaseResult.missing_info = some [] ∧
    (assessCase env0 c7PrenatalPayload).2.map CaseResult.missing_info =
      some (missingInfo (assessCase env0 c7PrenatalPayload).1) :=
  ⟨by decide,
   (c7_not_prioritized_suppression env0 c7Payload (by decide)).1,
   (c7_not_prioritized_suppression env0 c7Payload (by decide)).2.1 (by decide),
   (c7_not_prioritized_suppression env0 c7PrenatalPayload (by decide)).2.2 (by decide)⟩

/-- Concrete prenatal payload with free-text findings. -/
def c8PrenatalPayload : Payload :=
  { pathway := some "prenatal", prenatal_findings := some (FindingsVal.str "nuchal fold"),
    clinical_notes := some "NIPT positive" }

theorem c8_mutation_extent_witness :
    effPath c8PrenatalPayload = "prenatal" ∧
    (assessCase env0 c8PrenatalPayload).1.prenatal_findings = some (FindingsVal.list
      (normalizePrenatalFindings c8PrenatalPayload.prenatal_findings
        c8PrenatalPayload.clinical_notes c8PrenatalPayload.family_history_summary)) ∧
    effPath c8Payload ≠ "prenatal" ∧
    (assessCase env0 c8Payload).1.prenatal_findings = c8Payload.prenatal_findings :=
  ⟨by decide, (c8_mutation_extent env0 c8PrenatalPayload).2.1 (by decide),
   by decide, (c8_mutation_extent env0 c8Payload).2.2.1 (by decide)⟩

theorem c10_extras_per_occurrence_witness :
    isExtraIndicator "pancreatic_cancer" = true ∧
    2 ≤ (["pancreatic_cancer", "pancreatic_cancer"] : List String).count "pancreatic_cancer" ∧
    jsLt (scoreConfirmed oncogeneticsRules
        (["pancreatic_cancer", "pancreatic_cancer"] : List String).dedup).1
      (scoreConfirmed oncogeneticsRules
        ["pancreatic_cancer", "pancreatic_cancer"]).1 = true :=
  ⟨by decide, by decide,
   c10_extras_per_occurrence.2.2 "oncogenetics" oncogeneticsRules
     ["pancreatic_cancer", "pancreatic_cancer"] "pancreatic_cancer"
     rfl (by decide) (by decide) (by decide)⟩
